import Mathlib

/-!
Verification of the rpc-gen code generator (`main.go`).

The program walks a parsed Go source tree, finds interface declarations,
validates each method signature against the required
`(context.Context, Request) (*Response, error)` shape, builds a
`ServiceData` record per interface, renders a fixed `text/template`
client stub for each record, and post-processes the text with the
external `golang.org/x/tools/imports` normalizer before writing
`{lowercase(service)}_client_gen.go`.

The embedding below mirrors the source:
  * `Expr` covers the Go AST expression shapes that the program's type
    switches distinguish (`*ast.Ident`, `*ast.StarExpr`,
    `*ast.SelectorExpr`, and a terminal `other` for every remaining
    node kind).
  * `validateMethodSignature` returns `Option Bool`: `some b` is the
    function's boolean result, `none` models a runtime panic (the Go
    code performs the unchecked type assertion
    `ctxSelector.X.(*ast.Ident)` on the first parameter's qualifier).
  * `extractMethods` / `collectServices` propagate a panic as `none`,
    since a panic in the traversal aborts the whole process.
  * The `clientTemplate` expansion is embedded line by line as
    `renderLines`; `generatedText` joins the lines with the newline
    terminators that `text/template` emits.
  * Import normalization and file I/O are external collaborators: they
    are threaded through `generateClientCode` / `driveGeneration` as an
    explicit `normalizeImports` function that may fail, exactly where
    `imports.Process` sits in `generateClientCode`.
-/

namespace RpcGen

/-- Go AST expression shapes distinguished by the program
(`extractTypeName`'s type switch and the validator's assertions).
`other` stands for every remaining `ast.Expr` node kind (struct types,
map types, array types, ...), tagged with a free-form description. -/
inductive Expr where
  | ident (name : String)
  | star (x : Expr)
  | selector (x : Expr) (sel : String)
  | other (kind : String)
deriving DecidableEq, Repr

/-- An `ast.Field`: a list of names and one type expression. -/
structure Field where
  names : List String
  type : Expr
deriving DecidableEq, Repr

/-- An `ast.FieldList` (the `.List` slice). -/
structure FieldList where
  list : List Field
deriving DecidableEq, Repr

/-- An `ast.FuncType`: `Params` and `Results` are nilable field lists. -/
structure FuncType where
  params : Option FieldList
  results : Option FieldList
deriving DecidableEq, Repr

/-- One entry of `interfaceType.Methods.List`.  A method field has an
`*ast.FuncType` and (for any interface produced by the Go parser) a
first name; an embedded interface has an expression type instead and is
skipped by the `method.Type.(*ast.FuncType)` assertion's `ok` check. -/
inductive MethodSpec where
  | funcMethod (name : String) (funcType : FuncType)
  | embedded (e : Expr)
deriving DecidableEq, Repr

/-- An `ast.InterfaceType`. -/
structure InterfaceType where
  methods : List MethodSpec
deriving DecidableEq, Repr

/-- The right-hand side of an `ast.TypeSpec`. -/
inductive TypeSpecKind where
  | interfaceType (it : InterfaceType)
  | otherType (e : Expr)
deriving DecidableEq, Repr

/-- An `ast.TypeSpec` as encountered by the `ast.Inspect` traversal. -/
structure TypeSpec where
  name : String
  kind : TypeSpecKind
deriving DecidableEq, Repr

/-- The `Method` record of `main.go`. -/
structure Method where
  Name : String
  RequestType : String
  ResponseType : String
deriving DecidableEq, Repr

/-- The `ServiceData` record of `main.go`. -/
structure ServiceData where
  PackageName : String
  ServiceName : String
  Methods : List Method
deriving DecidableEq, Repr

/-- `extractTypeName` from `main.go`: an identifier yields its name, a
star expression prepends `*` to the recursive result, every other
expression shape (including selector expressions) yields `"unknown"`. -/
def extractTypeName : Expr → String
  | .ident name => name
  | .star x => "*" ++ extractTypeName x
  | .selector _ _ => "unknown"
  | .other _ => "unknown"

/-- `strings.TrimPrefix(s, "*")`: removes one leading `*` if present,
otherwise returns the string unchanged. -/
def trimStar (s : String) : String :=
  match s.data with
  | '*' :: rest => String.mk rest
  | _ => s

/-- `validateMethodSignature` from `main.go` (diagnostic logging
omitted; it does not affect the result).  Checks, in source order:
params non-nil, exactly two params, first param a `*ast.SelectorExpr`,
its qualifier (via the unchecked assertion `ctxSelector.X.(*ast.Ident)`,
modelled by the `none` outcome on any non-identifier qualifier) joined
with the selector equal to `"context.Context"`, second param an
identifier, results non-nil, exactly two results, first result a
`*ast.StarExpr`, second result the identifier `error`.  The
`funcType == nil` guard of the source is unreachable from
`extractMethods` (which only passes values produced by a successful
type assertion) and is not modelled. -/
def validateMethodSignature (funcType : FuncType) : Option Bool :=
  match funcType.params with
  | none => some false
  | some params =>
    match params.list with
    | [p0, p1] =>
      match p0.type with
      | .selector x sel =>
        match x with
        | .ident xname =>
          if xname ++ "." ++ sel ≠ "context.Context" then some false
          else
            match p1.type with
            | .ident _ =>
              match funcType.results with
              | none => some false
              | some results =>
                match results.list with
                | [r0, r1] =>
                  match r0.type with
                  | .star _ =>
                    match r1.type with
                    | .ident ename =>
                      if ename ≠ "error" then some false else some true
                    | _ => some false
                  | _ => some false
                | _ => some false
            | _ => some false
        | _ => none
      | _ => some false
    | _ => some false

/-- The loop body of `extractMethods` from `main.go`, over the entries
of `interfaceType.Methods.List`: entries that are not function types
are skipped; a method failing validation is skipped; an accepted method
contributes a `Method` whose request type is
`extractTypeName(funcType.Params.List[1].Type)` and whose response type
is `extractTypeName(funcType.Results.List[0].Type)` with the pointer
marker trimmed by `strings.TrimPrefix`.  `none` propagates a panic. -/
def extractMethodsList : List MethodSpec → Option (List Method)
  | [] => some []
  | .embedded _ :: rest => extractMethodsList rest
  | .funcMethod name funcType :: rest =>
    match validateMethodSignature funcType with
    | none => none
    | some false => extractMethodsList rest
    | some true =>
      match funcType.params, funcType.results with
      | some params, some results =>
        match params.list.get? 1, results.list.get? 0 with
        | some p1, some r0 =>
          (extractMethodsList rest).map fun ms =>
            { Name := name
              RequestType := extractTypeName p1.type
              ResponseType := trimStar (extractTypeName r0.type) } :: ms
        | _, _ => none
      | _, _ => none

/-- `extractMethods` from `main.go`. -/
def extractMethods (interfaceType : InterfaceType) : Option (List Method) :=
  extractMethodsList interfaceType.methods

/-- The `ast.Inspect` traversal of `main`: every `ast.TypeSpec` whose
type is an `ast.InterfaceType` contributes one `ServiceData`
(unconditionally, even when `extractMethods` yields no methods), in
traversal order.  `none` propagates a panic out of `extractMethods`. -/
def collectServices (pkgName : String) : List TypeSpec → Option (List ServiceData)
  | [] => some []
  | ts :: rest =>
    match ts.kind with
    | .interfaceType it =>
      match extractMethods it with
      | none => none
      | some ms =>
        (collectServices pkgName rest).map fun sds =>
          { PackageName := pkgName, ServiceName := ts.name, Methods := ms } :: sds
    | .otherType _ => collectServices pkgName rest

/-! ### The `clientTemplate` expansion

`text/template` substitutes the `{{...}}` actions and emits all other
template text verbatim (no newline trimming: the newline following a
`{{range ...}}` or preceding `{{end}}` belongs to the repeated body).
The template is embedded line by line; `generatedText` restores the
flat output by terminating every line with the newline the template
carries. -/

/-- One `gob.Register` statement of the `func init()` block. -/
def regLine (t : String) : String := "   gob.Register(" ++ t ++ "\x7b\x7d)"

/-- `package` clause line. -/
def pkgLine (p : String) : String := "package " ++ p

/-- Client struct declaration header. -/
def typeLine (s : String) : String := "type " ++ s ++ "Client struct \x7b"

/-- Constructor header `func New<S>Client(address string) (*<S>Client, error) {`. -/
def ctorLine (s : String) : String :=
  "func New" ++ s ++ "Client(address string) (*" ++ s ++ "Client, error) \x7b"

/-- The `rpc.Dial` line of the constructor. -/
def dialLine : String := "   client, err := rpc.Dial(\"tcp\", address)"

/-- The shared `if err != nil {` line. -/
def ifErrLine : String := "   if err != nil \x7b"

/-- Error-wrapping line of the constructor. -/
def ctorErrLine (p s : String) : String :=
  "       return nil, fmt.Errorf(\"" ++ p ++ ".New" ++ s
    ++ "Client rpc.Dial error: %w\", err)"

/-- Success return of the constructor. -/
def ctorRetLine (s : String) : String :=
  "   return &" ++ s ++ "Client\x7bclient: client\x7d, nil"

/-- Header of one generated call-wrapping client method. -/
def callLine (s : String) (m : Method) : String :=
  "func (c *" ++ s ++ "Client) " ++ m.Name ++ "(request " ++ m.RequestType
    ++ ") (*" ++ m.ResponseType ++ ", error) \x7b"

/-- `var response <T>` line of a call-wrapping method. -/
def callVarLine (m : Method) : String := "   var response " ++ m.ResponseType

/-- The `c.client.Call` invocation tagged `"<Service>.<Method>"`. -/
def callCallLine (s : String) (m : Method) : String :=
  "   err := c.client.Call(\"" ++ s ++ "." ++ m.Name ++ "\", request, &response)"

/-- Error-wrapping line of a call-wrapping method. -/
def callErrLine (p s : String) (m : Method) : String :=
  "       return nil, fmt.Errorf(\"" ++ p ++ "." ++ s ++ "Client." ++ m.Name
    ++ " Call error: %w\", err)"

/-- Header of the generated `Close` method. -/
def closeLine (s : String) : String :=
  "func (c *" ++ s ++ "Client) Close() error \x7b"

/-- Lines one iteration of the registration `{{range .Methods}}` body
emits: a blank line, the response registration, the request
registration (response before request, exactly as in the template). -/
def regChunk (m : Method) : List String :=
  ["", regLine m.ResponseType, regLine m.RequestType]

/-- Lines one iteration of the method `{{range .Methods}}` body emits. -/
def callChunk (p s : String) (m : Method) : List String :=
  ["", callLine s m, callVarLine m, callCallLine s m, ifErrLine,
   callErrLine p s m, "   \x7d", "", "   return &response, nil", "\x7d"]

/-- The full expansion of `clientTemplate` against a `ServiceData`, as
the list of output lines in order. -/
def renderLines (sd : ServiceData) : List String :=
  ["", pkgLine sd.PackageName, "", "func init() \x7b"]
  ++ sd.Methods.flatMap regChunk
  ++ ["", "\x7d", "", typeLine sd.ServiceName, "   client *rpc.Client",
      "\x7d", "", ctorLine sd.ServiceName, dialLine, ifErrLine,
      ctorErrLine sd.PackageName sd.ServiceName, "   \x7d", "",
      ctorRetLine sd.ServiceName, "\x7d", ""]
  ++ sd.Methods.flatMap (callChunk sd.PackageName sd.ServiceName)
  ++ ["", closeLine sd.ServiceName, "   return c.client.Close()", "\x7d"]

/-- Joins output lines back into the flat template output (every line
of the template, the last included, is terminated by a newline). -/
def joinLines (ls : List String) : String :=
  String.join (ls.map (· ++ "\n"))

/-- The text `temp.Execute` produces for a `ServiceData` (with this
fixed, well-formed template and a plain data record, execution cannot
fail, so it is total here). -/
def generatedText (sd : ServiceData) : String :=
  joinLines (renderLines sd)

/-- `strings.ToLower`, character by character (Go's version is
Unicode-aware; service names are Go identifiers and the claims only
exercise ASCII, which `Char.toLower` matches). -/
def lowercase (s : String) : String :=
  String.mk (s.data.map Char.toLower)

/-- The output file name computed in `generateClientCode`:
`fmt.Sprintf("%s_client_gen.go", strings.ToLower(serviceData.ServiceName))`. -/
def fileNameFor (serviceName : String) : String :=
  lowercase serviceName ++ "_client_gen.go"

/-- `generateClientCode` from `main.go`, with the external
`imports.Process` normalizer passed explicitly and the file write
returned as a (name, contents) pair instead of performed: template
expansion, then import normalization (its failure wrapped as
`imports error: ...`), then the deterministically named output. -/
def generateClientCode (normalizeImports : String → Except String String)
    (serviceData : ServiceData) : Except String (String × String) :=
  match normalizeImports (generatedText serviceData) with
  | .error e => .error ("imports error: " ++ e)
  | .ok formatted => .ok (fileNameFor serviceData.ServiceName, formatted)

/-- The generation loop of `main`: services are processed in order;
the first `generateClientCode` failure stops the loop (`os.Exit(1)`),
producing no output for the failing service nor any later one.  The
result is the list of outputs handed to the writer plus the fatal
error, if any. -/
def driveGeneration (normalizeImports : String → Except String String) :
    List ServiceData → List (String × String) × Option String
  | [] => ([], none)
  | sd :: rest =>
    match generateClientCode normalizeImports sd with
    | .error e => ([], some e)
    | .ok out =>
      let (outs, err) := driveGeneration normalizeImports rest
      (out :: outs, err)

/-- The process exit code implied by a generation run. -/
def exitCode (r : List (String × String) × Option String) : Nat :=
  match r.2 with
  | none => 0
  | some _ => 1

/-- An import normalizer that always succeeds and keeps the text; used
to instantiate theorems at concrete inputs. -/
def okNormalize : String → Except String String := fun s => .ok s

/-! ### Spec-side definitions (for comparison with the code) -/

/-- The six shape conditions of spec §4.1, read literally: exactly two
parameters; first parameter a qualified reference whose fully-qualified
name is `context.Context`; second parameter a plain named type; exactly
two results; first result a pointer **to a named type**; second result
the identifier `error`. -/
def specShapeConds (ft : FuncType) : Bool :=
  match ft.params, ft.results with
  | some ps, some rs =>
    match ps.list, rs.list with
    | [p0, p1], [r0, r1] =>
      (match p0.type with
       | .selector (.ident q) s => q ++ "." ++ s == "context.Context"
       | _ => false)
      && (match p1.type with
          | .ident _ => true
          | _ => false)
      && (match r0.type with
          | .star (.ident _) => true
          | _ => false)
      && (r1.type == .ident "error")
    | _, _ => false
  | _, _ => false

/-- The shape conditions as the code actually checks them: identical to
`specShapeConds` except that the first result need only be a pointer
(to any expression). -/
def codeShapeConds (ft : FuncType) : Bool :=
  match ft.params, ft.results with
  | some ps, some rs =>
    match ps.list, rs.list with
    | [p0, p1], [r0, r1] =>
      (match p0.type with
       | .selector (.ident q) s => q ++ "." ++ s == "context.Context"
       | _ => false)
      && (match p1.type with
          | .ident _ => true
          | _ => false)
      && (match r0.type with
          | .star _ => true
          | _ => false)
      && (r1.type == .ident "error")
    | _, _ => false
  | _, _ => false

/-- Modelled from the spec's words: a type name with *every* leading
indirection marker stripped, "yielding the bare declared type name". -/
def specBareName (s : String) : String :=
  String.mk (s.data.dropWhile (· == '*'))

/-- The names declared by the function-typed entries of an interface's
method list, in declaration order. -/
def declaredNames : List MethodSpec → List String
  | [] => []
  | .funcMethod n _ :: rest => n :: declaredNames rest
  | .embedded _ :: rest => declaredNames rest

/-! ### Line classifiers used to count features of the rendered text -/

/-- Character-list prefix test (structural, so proofs can compute with
it directly). -/
def chStart : List Char → List Char → Bool
  | [], _ => true
  | _ :: _, [] => false
  | p :: ps, c :: cs => p == c && chStart ps cs

/-- `s` starts with `p`. -/
def strHasStart (p s : String) : Bool := chStart p.data s.data

/-- `s` ends with `p`. -/
def strHasEnd (p s : String) : Bool := chStart p.data.reverse s.data.reverse

/-- A type-registration statement line. -/
def isRegLine (l : String) : Bool := strHasStart "   gob.Register(" l

/-- The header line of a call-wrapping client method. -/
def isCallHeader (l : String) : Bool :=
  strHasStart "func (c *" l && strHasEnd ", error) \x7b" l

/-- The header line of the constructor. -/
def isCtorHeader (l : String) : Bool := strHasStart "func New" l

/-- The header line of the `Close` method. -/
def isCloseHeader (l : String) : Bool :=
  strHasStart "func (c *" l && strHasEnd ") Close() error \x7b" l

/-! ### Concrete example inputs -/

/-- A fully conforming signature:
`Say(ctx context.Context, req Req) (*Resp, error)`. -/
def conformingFt : FuncType :=
  { params := some ⟨[⟨["ctx"], .selector (.ident "context") "Context"⟩,
                    ⟨["req"], .ident "Req"⟩]⟩
    results := some ⟨[⟨[], .star (.ident "Resp")⟩, ⟨[], .ident "error"⟩]⟩ }

/-- First parameter `a.b.Context`: its qualifier is itself a selector
expression, so the unchecked assertion `ctxSelector.X.(*ast.Ident)` in
`validateMethodSignature` panics on it. -/
def nestedCtxFt : FuncType :=
  { params := some ⟨[⟨["ctx"], .selector (.selector (.ident "a") "b") "Context"⟩,
                    ⟨["req"], .ident "Req"⟩]⟩
    results := some ⟨[⟨[], .star (.ident "Resp")⟩, ⟨[], .ident "error"⟩]⟩ }

/-- Conforming except that the first result is a pointer to a pointer:
`(ctx context.Context, req Req) (**Resp, error)`. -/
def starStarFt : FuncType :=
  { params := some ⟨[⟨["ctx"], .selector (.ident "context") "Context"⟩,
                    ⟨["req"], .ident "Req"⟩]⟩
    results := some ⟨[⟨[], .star (.star (.ident "Resp"))⟩, ⟨[], .ident "error"⟩]⟩ }

/-- Conforming except that the first result is a pointer to a
non-identifier, non-pointer type expression (e.g. `*struct{...}`). -/
def starOtherFt : FuncType :=
  { params := some ⟨[⟨["ctx"], .selector (.ident "context") "Context"⟩,
                    ⟨["req"], .ident "Req"⟩]⟩
    results := some ⟨[⟨[], .star (.other "structType")⟩, ⟨[], .ident "error"⟩]⟩ }

/-- The spec's negative scenario `Say(req *Msg) *Reply`: no context
parameter and no error result. -/
def invalidSayFt : FuncType :=
  { params := some ⟨[⟨["req"], .star (.ident "Msg")⟩]⟩
    results := some ⟨[⟨[], .star (.ident "Reply")⟩]⟩ }

/-- A sample service description with one accepted method. -/
def sampleService : ServiceData :=
  { PackageName := "main", ServiceName := "Echo",
    Methods := [{ Name := "Say", RequestType := "Msg", ResponseType := "Reply" }] }

/-- A sample service description with no methods. -/
def userService : ServiceData :=
  { PackageName := "main", ServiceName := "UserService", Methods := [] }

/-! ### String helper lemmas -/

theorem strData_append (a b : String) : (a ++ b).data = a.data ++ b.data := rfl

theorem stringMk_data (s : String) : String.mk s.data = s := rfl

theorem chStart_self_append (p r : List Char) : chStart p (p ++ r) = true := by
  induction p with
  | nil => rfl
  | cons a ps ih => simp [chStart, ih]

theorem chStart_extend {p q : List Char} (r : List Char)
    (h : chStart p q = true) : chStart p (q ++ r) = true := by
  induction p generalizing q with
  | nil => rfl
  | cons a ps ih =>
    cases q with
    | nil => simp [chStart] at h
    | cons b qs =>
      simp only [chStart, Bool.and_eq_true, beq_iff_eq] at h
      simp only [List.cons_append, chStart, Bool.and_eq_true, beq_iff_eq]
      exact ⟨h.1, ih h.2⟩

theorem chStart_mismatch (i : Nat) (p f r : List Char)
    (h1 : i < p.length) (h2 : i < f.length) (h3 : p[i]? ≠ f[i]?) :
    chStart p (f ++ r) = false := by
  induction i generalizing p f with
  | zero =>
    cases p with
    | nil => simp at h1
    | cons a ps =>
      cases f with
      | nil => simp at h2
      | cons b fs =>
        simp only [List.getElem?_cons_zero] at h3
        have hne : a ≠ b := fun h => h3 (by rw [h])
        simp [chStart, hne]
  | succ i ih =>
    cases p with
    | nil => simp at h1
    | cons a ps =>
      cases f with
      | nil => simp at h2
      | cons b fs =>
        by_cases hab : a = b
        · subst hab
          simp only [List.getElem?_cons_succ] at h3
          have := ih ps fs (by simpa using h1) (by simpa using h2) h3
          simp [chStart, this]
        · simp [chStart, hab]

theorem strHasStart_self (p r : String) : strHasStart p (p ++ r) = true := by
  unfold strHasStart
  rw [strData_append]
  exact chStart_self_append _ _

theorem strHasStart_mismatch (p f r : String) (i : Nat)
    (h1 : i < p.data.length) (h2 : i < f.data.length)
    (h3 : p.data[i]? ≠ f.data[i]?) :
    strHasStart p (f ++ r) = false := by
  unfold strHasStart
  rw [strData_append]
  exact chStart_mismatch i _ _ _ h1 h2 h3

theorem strHasEnd_self (p a : String) : strHasEnd p (a ++ p) = true := by
  unfold strHasEnd
  rw [strData_append, List.reverse_append]
  exact chStart_self_append _ _

theorem strHasEnd_of_end (p f a : String) (h : strHasEnd p f = true) :
    strHasEnd p (a ++ f) = true := by
  unfold strHasEnd at h ⊢
  rw [strData_append, List.reverse_append]
  exact chStart_extend _ h

theorem strHasEnd_mismatch (p f a : String) (i : Nat)
    (h1 : i < p.data.reverse.length) (h2 : i < f.data.reverse.length)
    (h3 : p.data.reverse[i]? ≠ f.data.reverse[i]?) :
    strHasEnd p (a ++ f) = false := by
  unfold strHasEnd
  rw [strData_append, List.reverse_append]
  exact chStart_mismatch i _ _ _ h1 h2 h3

theorem trimStar_star (s : String) : trimStar ("*" ++ s) = s := by
  have h : ("*" ++ s).data = '*' :: s.data := rfl
  unfold trimStar
  rw [h]
  rfl

/-! ### Which classifier matches which rendered line -/

theorem lineFacts_empty :
    isRegLine "" = false ∧ isCallHeader "" = false
    ∧ isCtorHeader "" = false ∧ isCloseHeader "" = false := by decide

theorem lineFacts_funcInit :
    isRegLine "func init() \x7b" = false ∧ isCallHeader "func init() \x7b" = false
    ∧ isCtorHeader "func init() \x7b" = false
    ∧ isCloseHeader "func init() \x7b" = false := by decide

theorem lineFacts_brace :
    isRegLine "\x7d" = false ∧ isCallHeader "\x7d" = false
    ∧ isCtorHeader "\x7d" = false ∧ isCloseHeader "\x7d" = false := by decide

theorem lineFacts_indentBrace :
    isRegLine "   \x7d" = false ∧ isCallHeader "   \x7d" = false
    ∧ isCtorHeader "   \x7d" = false ∧ isCloseHeader "   \x7d" = false := by decide

theorem lineFacts_clientField :
    isRegLine "   client *rpc.Client" = false
    ∧ isCallHeader "   client *rpc.Client" = false
    ∧ isCtorHeader "   client *rpc.Client" = false
    ∧ isCloseHeader "   client *rpc.Client" = false := by decide

theorem lineFacts_dial :
    isRegLine dialLine = false ∧ isCallHeader dialLine = false
    ∧ isCtorHeader dialLine = false ∧ isCloseHeader dialLine = false := by decide

theorem lineFacts_ifErr :
    isRegLine ifErrLine = false ∧ isCallHeader ifErrLine = false
    ∧ isCtorHeader ifErrLine = false ∧ isCloseHeader ifErrLine = false := by decide

theorem lineFacts_retResp :
    isRegLine "   return &response, nil" = false
    ∧ isCallHeader "   return &response, nil" = false
    ∧ isCtorHeader "   return &response, nil" = false
    ∧ isCloseHeader "   return &response, nil" = false := by decide

theorem lineFacts_retClose :
    isRegLine "   return c.client.Close()" = false
    ∧ isCallHeader "   return c.client.Close()" = false
    ∧ isCtorHeader "   return c.client.Close()" = false
    ∧ isCloseHeader "   return c.client.Close()" = false := by decide

theorem lineFacts_pkg (p : String) :
    isRegLine (pkgLine p) = false ∧ isCallHeader (pkgLine p) = false
    ∧ isCtorHeader (pkgLine p) = false ∧ isCloseHeader (pkgLine p) = false := by
  have h1 : strHasStart "   gob.Register(" (pkgLine p) = false := by
    unfold pkgLine
    exact strHasStart_mismatch _ "package " _ 0 (by decide) (by decide) (by decide)
  have h2 : strHasStart "func (c *" (pkgLine p) = false := by
    unfold pkgLine
    exact strHasStart_mismatch _ "package " _ 0 (by decide) (by decide) (by decide)
  have h3 : strHasStart "func New" (pkgLine p) = false := by
    unfold pkgLine
    exact strHasStart_mismatch _ "package " _ 0 (by decide) (by decide) (by decide)
  simp [isRegLine, isCallHeader, isCtorHeader, isCloseHeader, h1, h2, h3]

theorem lineFacts_type (s : String) :
    isRegLine (typeLine s) = false ∧ isCallHeader (typeLine s) = false
    ∧ isCtorHeader (typeLine s) = false ∧ isCloseHeader (typeLine s) = false := by
  have h1 : strHasStart "   gob.Register(" (typeLine s) = false := by
    unfold typeLine; simp only [String.append_assoc]
    exact strHasStart_mismatch _ "type " _ 0 (by decide) (by decide) (by decide)
  have h2 : strHasStart "func (c *" (typeLine s) = false := by
    unfold typeLine; simp only [String.append_assoc]
    exact strHasStart_mismatch _ "type " _ 0 (by decide) (by decide) (by decide)
  have h3 : strHasStart "func New" (typeLine s) = false := by
    unfold typeLine; simp only [String.append_assoc]
    exact strHasStart_mismatch _ "type " _ 0 (by decide) (by decide) (by decide)
  simp [isRegLine, isCallHeader, isCtorHeader, isCloseHeader, h1, h2, h3]

theorem lineFacts_reg (t : String) :
    isRegLine (regLine t) = true ∧ isCallHeader (regLine t) = false
    ∧ isCtorHeader (regLine t) = false ∧ isCloseHeader (regLine t) = false := by
  have h1 : strHasStart "   gob.Register(" (regLine t) = true := by
    unfold regLine; simp only [String.append_assoc]
    exact strHasStart_self _ _
  have h2 : strHasStart "func (c *" (regLine t) = false := by
    unfold regLine; simp only [String.append_assoc]
    exact strHasStart_mismatch _ "   gob.Register(" _ 0 (by decide) (by decide) (by decide)
  have h3 : strHasStart "func New" (regLine t) = false := by
    unfold regLine; simp only [String.append_assoc]
    exact strHasStart_mismatch _ "   gob.Register(" _ 0 (by decide) (by decide) (by decide)
  simp [isRegLine, isCallHeader, isCtorHeader, isCloseHeader, h1, h2, h3]

theorem lineFacts_ctor (s : String) :
    isRegLine (ctorLine s) = false ∧ isCallHeader (ctorLine s) = false
    ∧ isCtorHeader (ctorLine s) = true ∧ isCloseHeader (ctorLine s) = false := by
  have h1 : strHasStart "   gob.Register(" (ctorLine s) = false := by
    unfold ctorLine; simp only [String.append_assoc]
    exact strHasStart_mismatch _ "func New" _ 0 (by decide) (by decide) (by decide)
  have h2 : strHasStart "func (c *" (ctorLine s) = false := by
    unfold ctorLine; simp only [String.append_assoc]
    exact strHasStart_mismatch _ "func New" _ 5 (by decide) (by decide) (by decide)
  have h3 : strHasStart "func New" (ctorLine s) = true := by
    unfold ctorLine; simp only [String.append_assoc]
    exact strHasStart_self _ _
  simp [isRegLine, isCallHeader, isCtorHeader, isCloseHeader, h1, h2, h3]

theorem lineFacts_ctorErr (p s : String) :
    isRegLine (ctorErrLine p s) = false ∧ isCallHeader (ctorErrLine p s) = false
    ∧ isCtorHeader (ctorErrLine p s) = false
    ∧ isCloseHeader (ctorErrLine p s) = false := by
  have h1 : strHasStart "   gob.Register(" (ctorErrLine p s) = false := by
    unfold ctorErrLine; simp only [String.append_assoc]
    exact strHasStart_mismatch _ "       return nil, fmt.Errorf(\"" _ 3
      (by decide) (by decide) (by decide)
  have h2 : strHasStart "func (c *" (ctorErrLine p s) = false := by
    unfold ctorErrLine; simp only [String.append_assoc]
    exact strHasStart_mismatch _ "       return nil, fmt.Errorf(\"" _ 0
      (by decide) (by decide) (by decide)
  have h3 : strHasStart "func New" (ctorErrLine p s) = false := by
    unfold ctorErrLine; simp only [String.append_assoc]
    exact strHasStart_mismatch _ "       return nil, fmt.Errorf(\"" _ 0
      (by decide) (by decide) (by decide)
  simp [isRegLine, isCallHeader, isCtorHeader, isCloseHeader, h1, h2, h3]

theorem lineFacts_ctorRet (s : String) :
    isRegLine (ctorRetLine s) = false ∧ isCallHeader (ctorRetLine s) = false
    ∧ isCtorHeader (ctorRetLine s) = false
    ∧ isCloseHeader (ctorRetLine s) = false := by
  have h1 : strHasStart "   gob.Register(" (ctorRetLine s) = false := by
    unfold ctorRetLine; simp only [String.append_assoc]
    exact strHasStart_mismatch _ "   return &" _ 3 (by decide) (by decide) (by decide)
  have h2 : strHasStart "func (c *" (ctorRetLine s) = false := by
    unfold ctorRetLine; simp only [String.append_assoc]
    exact strHasStart_mismatch _ "   return &" _ 0 (by decide) (by decide) (by decide)
  have h3 : strHasStart "func New" (ctorRetLine s) = false := by
    unfold ctorRetLine; simp only [String.append_assoc]
    exact strHasStart_mismatch _ "   return &" _ 0 (by decide) (by decide) (by decide)
  simp [isRegLine, isCallHeader, isCtorHeader, isCloseHeader, h1, h2, h3]

theorem lineFacts_callLine (s : String) (m : Method) :
    isRegLine (callLine s m) = false ∧ isCallHeader (callLine s m) = true
    ∧ isCtorHeader (callLine s m) = false
    ∧ isCloseHeader (callLine s m) = false := by
  have h1 : strHasStart "   gob.Register(" (callLine s m) = false := by
    unfold callLine; simp only [String.append_assoc]
    exact strHasStart_mismatch _ "func (c *" _ 0 (by decide) (by decide) (by decide)
  have h2 : strHasStart "func (c *" (callLine s m) = true := by
    unfold callLine; simp only [String.append_assoc]
    exact strHasStart_self _ _
  have h3 : strHasStart "func New" (callLine s m) = false := by
    unfold callLine; simp only [String.append_assoc]
    exact strHasStart_mismatch _ "func (c *" _ 5 (by decide) (by decide) (by decide)
  have h4 : strHasEnd ", error) \x7b" (callLine s m) = true := by
    unfold callLine
    exact strHasEnd_self _ _
  have h5 : strHasEnd ") Close() error \x7b" (callLine s m) = false := by
    unfold callLine
    exact strHasEnd_mismatch _ ", error) \x7b" _ 2 (by decide) (by decide) (by decide)
  simp [isRegLine, isCallHeader, isCtorHeader, isCloseHeader, h1, h2, h3, h4, h5]

theorem lineFacts_callVar (m : Method) :
    isRegLine (callVarLine m) = false ∧ isCallHeader (callVarLine m) = false
    ∧ isCtorHeader (callVarLine m) = false
    ∧ isCloseHeader (callVarLine m) = false := by
  have h1 : strHasStart "   gob.Register(" (callVarLine m) = false := by
    unfold callVarLine
    exact strHasStart_mismatch _ "   var response " _ 3 (by decide) (by decide) (by decide)
  have h2 : strHasStart "func (c *" (callVarLine m) = false := by
    unfold callVarLine
    exact strHasStart_mismatch _ "   var response " _ 0 (by decide) (by decide) (by decide)
  have h3 : strHasStart "func New" (callVarLine m) = false := by
    unfold callVarLine
    exact strHasStart_mismatch _ "   var response " _ 0 (by decide) (by decide) (by decide)
  simp [isRegLine, isCallHeader, isCtorHeader, isCloseHeader, h1, h2, h3]

theorem lineFacts_callCall (s : String) (m : Method) :
    isRegLine (callCallLine s m) = false ∧ isCallHeader (callCallLine s m) = false
    ∧ isCtorHeader (callCallLine s m) = false
    ∧ isCloseHeader (callCallLine s m) = false := by
  have h1 : strHasStart "   gob.Register(" (callCallLine s m) = false := by
    unfold callCallLine; simp only [String.append_assoc]
    exact strHasStart_mismatch _ "   err := c.client.Call(\"" _ 3
      (by decide) (by decide) (by decide)
  have h2 : strHasStart "func (c *" (callCallLine s m) = false := by
    unfold callCallLine; simp only [String.append_assoc]
    exact strHasStart_mismatch _ "   err := c.client.Call(\"" _ 0
      (by decide) (by decide) (by decide)
  have h3 : strHasStart "func New" (callCallLine s m) = false := by
    unfold callCallLine; simp only [String.append_assoc]
    exact strHasStart_mismatch _ "   err := c.client.Call(\"" _ 0
      (by decide) (by decide) (by decide)
  simp [isRegLine, isCallHeader, isCtorHeader, isCloseHeader, h1, h2, h3]

theorem lineFacts_callErr (p s : String) (m : Method) :
    isRegLine (callErrLine p s m) = false ∧ isCallHeader (callErrLine p s m) = false
    ∧ isCtorHeader (callErrLine p s m) = false
    ∧ isCloseHeader (callErrLine p s m) = false := by
  have h1 : strHasStart "   gob.Register(" (callErrLine p s m) = false := by
    unfold callErrLine; simp only [String.append_assoc]
    exact strHasStart_mismatch _ "       return nil, fmt.Errorf(\"" _ 3
      (by decide) (by decide) (by decide)
  have h2 : strHasStart "func (c *" (callErrLine p s m) = false := by
    unfold callErrLine; simp only [String.append_assoc]
    exact strHasStart_mismatch _ "       return nil, fmt.Errorf(\"" _ 0
      (by decide) (by decide) (by decide)
  have h3 : strHasStart "func New" (callErrLine p s m) = false := by
    unfold callErrLine; simp only [String.append_assoc]
    exact strHasStart_mismatch _ "       return nil, fmt.Errorf(\"" _ 0
      (by decide) (by decide) (by decide)
  simp [isRegLine, isCallHeader, isCtorHeader, isCloseHeader, h1, h2, h3]

theorem lineFacts_close (s : String) :
    isRegLine (closeLine s) = false ∧ isCallHeader (closeLine s) = false
    ∧ isCtorHeader (closeLine s) = false ∧ isCloseHeader (closeLine s) = true := by
  have h1 : strHasStart "   gob.Register(" (closeLine s) = false := by
    unfold closeLine; simp only [String.append_assoc]
    exact strHasStart_mismatch _ "func (c *" _ 0 (by decide) (by decide) (by decide)
  have h2 : strHasStart "func (c *" (closeLine s) = true := by
    unfold closeLine; simp only [String.append_assoc]
    exact strHasStart_self _ _
  have h3 : strHasStart "func New" (closeLine s) = false := by
    unfold closeLine; simp only [String.append_assoc]
    exact strHasStart_mismatch _ "func (c *" _ 5 (by decide) (by decide) (by decide)
  have h4 : strHasEnd ", error) \x7b" (closeLine s) = false := by
    unfold closeLine
    exact strHasEnd_mismatch _ "Client) Close() error \x7b" _ 2
      (by decide) (by decide) (by decide)
  have h5 : strHasEnd ") Close() error \x7b" (closeLine s) = true := by
    unfold closeLine
    exact strHasEnd_of_end _ "Client) Close() error \x7b" _ (by decide)
  simp [isRegLine, isCallHeader, isCtorHeader, isCloseHeader, h1, h2, h3, h4, h5]

/-! ### Counting rendered features -/

theorem countP_regChunk (m : Method) :
    List.countP isRegLine (regChunk m) = 2
    ∧ List.countP isCallHeader (regChunk m) = 0
    ∧ List.countP isCtorHeader (regChunk m) = 0
    ∧ List.countP isCloseHeader (regChunk m) = 0 := by
  simp [regChunk, List.countP_cons, lineFacts_empty, lineFacts_reg]

theorem countP_callChunk (p s : String) (m : Method) :
    List.countP isRegLine (callChunk p s m) = 0
    ∧ List.countP isCallHeader (callChunk p s m) = 1
    ∧ List.countP isCtorHeader (callChunk p s m) = 0
    ∧ List.countP isCloseHeader (callChunk p s m) = 0 := by
  simp [callChunk, List.countP_cons, lineFacts_empty, lineFacts_callLine,
    lineFacts_callVar, lineFacts_callCall, lineFacts_ifErr, lineFacts_callErr,
    lineFacts_indentBrace, lineFacts_retResp, lineFacts_brace]

theorem countP_flatMap_const {α β : Type} (p : β → Bool) (f : α → List β)
    (k : Nat) (h : ∀ a, List.countP p (f a) = k) (l : List α) :
    List.countP p (l.flatMap f) = k * l.length := by
  induction l with
  | nil => simp
  | cons a t ih =>
    simp only [List.flatMap_cons, List.countP_append, ih, h, List.length_cons]
    ring

/-- Feature counts of the rendered client text: one registration pair
per method, one call-wrapping method header per method, exactly one
constructor header and exactly one close-method header. -/
theorem renderCounts (sd : ServiceData) :
    List.countP isRegLine (renderLines sd) = 2 * sd.Methods.length
    ∧ List.countP isCallHeader (renderLines sd) = sd.Methods.length
    ∧ List.countP isCtorHeader (renderLines sd) = 1
    ∧ List.countP isCloseHeader (renderLines sd) = 1 := by
  have hr1 := countP_flatMap_const isRegLine regChunk 2
    (fun m => (countP_regChunk m).1) sd.Methods
  have hr2 := countP_flatMap_const isRegLine
    (callChunk sd.PackageName sd.ServiceName) 0
    (fun m => (countP_callChunk sd.PackageName sd.ServiceName m).1) sd.Methods
  have hc1 := countP_flatMap_const isCallHeader regChunk 0
    (fun m => (countP_regChunk m).2.1) sd.Methods
  have hc2 := countP_flatMap_const isCallHeader
    (callChunk sd.PackageName sd.ServiceName) 1
    (fun m => (countP_callChunk sd.PackageName sd.ServiceName m).2.1) sd.Methods
  have ht1 := countP_flatMap_const isCtorHeader regChunk 0
    (fun m => (countP_regChunk m).2.2.1) sd.Methods
  have ht2 := countP_flatMap_const isCtorHeader
    (callChunk sd.PackageName sd.ServiceName) 0
    (fun m => (countP_callChunk sd.PackageName sd.ServiceName m).2.2.1) sd.Methods
  have hl1 := countP_flatMap_const isCloseHeader regChunk 0
    (fun m => (countP_regChunk m).2.2.2) sd.Methods
  have hl2 := countP_flatMap_const isCloseHeader
    (callChunk sd.PackageName sd.ServiceName) 0
    (fun m => (countP_callChunk sd.PackageName sd.ServiceName m).2.2.2) sd.Methods
  refine ⟨?_, ?_, ?_, ?_⟩ <;>
    simp [renderLines, List.countP_append, List.countP_cons, hr1, hr2, hc1,
      hc2, ht1, ht2, hl1, hl2, lineFacts_empty, lineFacts_pkg,
      lineFacts_funcInit, lineFacts_brace, lineFacts_indentBrace,
      lineFacts_clientField, lineFacts_dial, lineFacts_ifErr,
      lineFacts_retResp, lineFacts_retClose, lineFacts_type, lineFacts_ctor,
      lineFacts_ctorErr, lineFacts_ctorRet, lineFacts_close,
      Nat.mul_comm]

/-! ### Extraction lemmas -/

/-- An accepted method contributes exactly one `Method` whose request
type is the second parameter's extracted name and whose response type
is the first result's extracted name with one `*` trimmed. -/
theorem extractMethodsList_cons_of_valid (n : String) (ft : FuncType)
    (p1 r0 : Field) (rest : List MethodSpec) (ms : List Method)
    (hv : validateMethodSignature ft = some true)
    (hp : ft.params.bind (fun fl => fl.list.get? 1) = some p1)
    (hr : ft.results.bind (fun fl => fl.list.get? 0) = some r0)
    (hrest : extractMethodsList rest = some ms) :
    extractMethodsList (.funcMethod n ft :: rest)
      = some ({ Name := n, RequestType := extractTypeName p1.type,
                ResponseType := trimStar (extractTypeName r0.type) } :: ms) := by
  cases hps : ft.params with
  | none => rw [hps] at hp; simp at hp
  | some pl =>
    cases hrs : ft.results with
    | none => rw [hrs] at hr; simp at hr
    | some rl =>
      rw [hps] at hp
      rw [hrs] at hr
      simp only [Option.some_bind] at hp hr
      simp only [extractMethodsList, hv, hps, hrs, hp, hr, hrest, Option.map_some']

/-! ### Claim C1 -/

/-- C1 (counterexample): the claim's condition 5 reads "first result a
pointer to a named type", but `validateMethodSignature` accepts a first
result `**Resp` — a pointer to a pointer, not to a named type — so the
stated "if and only if" fails at this input. -/
theorem c1_counterexample :
    validateMethodSignature starStarFt = some true
    ∧ specShapeConds starStarFt = false := by decide

set_option maxHeartbeats 1000000 in
/-- C1 (amended): `validateMethodSignature` returns true iff the six
shape conditions hold with condition 5 weakened to "first result is a
pointer (to any type expression)": exactly two parameters, first a
qualified reference with fully-qualified name `context.Context`, second
a plain named type, exactly two results, first a pointer, second the
identifier `error`. -/
theorem c1_validate_iff_amended_shape (ft : FuncType) :
    validateMethodSignature ft = some true ↔ codeShapeConds ft = true := by
  constructor
  · intro h
    unfold validateMethodSignature at h
    iterate 14 (all_goals try split at h)
    all_goals simp_all [codeShapeConds]
  · intro h
    unfold codeShapeConds at h
    iterate 14 (all_goals try split at h)
    all_goals simp_all [validateMethodSignature]

/-! ### Claim C2 -/

/-- C2 (code bug): on a method whose first parameter is `a.b.Context`,
`validateMethodSignature` does not return false — it panics on the
unchecked type assertion `ctxSelector.X.(*ast.Ident)` (modelled as
`none`), and the panic propagates through `extractMethods` and the
traversal, aborting the run instead of skipping the method. -/
theorem c2_nested_qualifier_panics :
    validateMethodSignature nestedCtxFt = none
    ∧ extractMethodsList [.funcMethod "Say" nestedCtxFt] = none
    ∧ collectServices "main"
        [⟨"Echo", .interfaceType ⟨[.funcMethod "Say" nestedCtxFt]⟩⟩] = none := by
  decide

/-! ### Claim C3 -/

/-- C3 (counterexample): the claim says the response type name has
*every* leading pointer marker stripped, yielding the bare declared
name.  For an accepted method with first result `**Resp` the code's
`strings.TrimPrefix` strips only one marker: the `Method` record holds
`"*Resp"`, not the bare name `"Resp"` that stripping every marker (the
spec-worded `specBareName`) would give. -/
theorem c3_counterexample :
    extractMethodsList [.funcMethod "M" starStarFt]
      = some [{ Name := "M", RequestType := "Req", ResponseType := "*Resp" }]
    ∧ specBareName (extractTypeName (Expr.star (Expr.star (Expr.ident "Resp")))) = "Resp"
    ∧ ("*Resp" : String) ≠ "Resp" := by decide

/-- C3 (amended): for every accepted method, the `Method` record's
request type name is the second parameter's extracted type name
unchanged, and its response type name is the first result's extracted
type name with a single leading pointer marker trimmed; since the first
result is a pointer `*x`, this equals the extracted name of the pointee
`x`, and when the pointee is a named type it is that bare declared
name. -/
theorem c3_type_names (n : String) (ft : FuncType) (p1 r0 : Field)
    (rest : List MethodSpec) (ms : List Method)
    (hv : validateMethodSignature ft = some true)
    (hp : ft.params.bind (fun fl => fl.list.get? 1) = some p1)
    (hr : ft.results.bind (fun fl => fl.list.get? 0) = some r0)
    (hrest : extractMethodsList rest = some ms) :
    extractMethodsList (.funcMethod n ft :: rest)
      = some ({ Name := n, RequestType := extractTypeName p1.type,
                ResponseType := trimStar (extractTypeName r0.type) } :: ms)
    ∧ (∀ x, r0.type = .star x →
        trimStar (extractTypeName r0.type) = extractTypeName x)
    ∧ (∀ b, r0.type = .star (.ident b) →
        trimStar (extractTypeName r0.type) = b) := by
  refine ⟨extractMethodsList_cons_of_valid n ft p1 r0 rest ms hv hp hr hrest,
    ?_, ?_⟩
  · intro x hx
    rw [hx]
    show trimStar ("*" ++ extractTypeName x) = extractTypeName x
    exact trimStar_star _
  · intro b hb
    rw [hb]
    show trimStar ("*" ++ b) = b
    exact trimStar_star _

/-- C3 witness at a conforming signature. -/
theorem c3_witness :
    extractMethodsList [.funcMethod "Say" conformingFt]
      = some [{ Name := "Say",
                RequestType := extractTypeName (Expr.ident "Req"),
                ResponseType := trimStar (extractTypeName (Expr.star (Expr.ident "Resp"))) }] :=
  (c3_type_names "Say" conformingFt ⟨["req"], Expr.ident "Req"⟩
    ⟨[], Expr.star (Expr.ident "Resp")⟩ [] []
    (by decide) (by decide) (by decide) rfl).1

/-! ### Claim C10 -/

/-- C10 (counterexample): the claim says an accepted method whose first
result is a pointer to a non-identifier type gets response type
`"unknown"`.  The first result `**Resp` of `starStarFt` is a pointer to
the non-identifier expression `*Resp`, the method is accepted, yet the
`Method` record holds `"*Resp"`, not `"unknown"`. -/
theorem c10_counterexample :
    validateMethodSignature starStarFt = some true
    ∧ extractMethodsList [.funcMethod "M" starStarFt]
        = some [{ Name := "M", RequestType := "Req", ResponseType := "*Resp" }]
    ∧ ("*Resp" : String) ≠ "unknown" := by decide

/-- C10 (amended): `extractTypeName` is total with `"unknown"` as the
result on every expression that is neither an identifier nor a pointer;
consequently an accepted method whose first result is a pointer to an
expression that is neither an identifier nor itself a pointer gets
response type `"unknown"` in its `Method` record. -/
theorem c10_unknown_type_names :
    (∀ e : Expr, (∀ n, e ≠ .ident n) → (∀ x, e ≠ .star x) →
      extractTypeName e = "unknown")
    ∧ (∀ (n : String) (ft : FuncType) (p1 r0 : Field) (x : Expr)
        (rest : List MethodSpec) (ms : List Method),
        validateMethodSignature ft = some true →
        ft.params.bind (fun fl => fl.list.get? 1) = some p1 →
        ft.results.bind (fun fl => fl.list.get? 0) = some r0 →
        r0.type = .star x → (∀ m, x ≠ .ident m) → (∀ y, x ≠ .star y) →
        extractMethodsList rest = some ms →
        extractMethodsList (.funcMethod n ft :: rest)
          = some ({ Name := n, RequestType := extractTypeName p1.type,
                    ResponseType := "unknown" } :: ms)) := by
  have htot : ∀ e : Expr, (∀ n, e ≠ .ident n) → (∀ x, e ≠ .star x) →
      extractTypeName e = "unknown" := by
    intro e h1 h2
    cases e with
    | ident n => exact absurd rfl (h1 n)
    | star x => exact absurd rfl (h2 x)
    | selector x s => rfl
    | other k => rfl
  refine ⟨htot, ?_⟩
  intro n ft p1 r0 x rest ms hv hp hr hx hni hns hrest
  have hcons := extractMethodsList_cons_of_valid n ft p1 r0 rest ms hv hp hr hrest
  have hresp : trimStar (extractTypeName r0.type) = "unknown" := by
    rw [hx]
    show trimStar ("*" ++ extractTypeName x) = "unknown"
    rw [trimStar_star, htot x hni hns]
  rw [hcons, hresp]

/-- C10 witness: a conforming method whose response payload is a
pointer to a struct literal. -/
theorem c10_witness :
    extractMethodsList [.funcMethod "M" starOtherFt]
      = some [{ Name := "M", RequestType := extractTypeName (Expr.ident "Req"),
                ResponseType := "unknown" }] :=
  c10_unknown_type_names.2 "M" starOtherFt ⟨["req"], Expr.ident "Req"⟩
    ⟨[], Expr.star (Expr.other "structType")⟩ (Expr.other "structType") [] []
    (by decide) (by decide) (by decide) rfl
    (fun _ h => Expr.noConfusion h) (fun _ h => Expr.noConfusion h) rfl

/-! ### Claim C4 -/

/-- C4: rendering a service description with N methods produces exactly
N call-wrapping client-method headers, exactly 2N type-registration
statements, exactly one constructor header and exactly one close-method
header, for every N including 0; and all registration statements sit in
one block holding, per method in declaration order, the response
registration immediately before the request registration. -/
theorem c4_rendered_client_shape (sd : ServiceData) :
    List.countP isCallHeader (renderLines sd) = sd.Methods.length
    ∧ List.countP isRegLine (renderLines sd) = 2 * sd.Methods.length
    ∧ List.countP isCtorHeader (renderLines sd) = 1
    ∧ List.countP isCloseHeader (renderLines sd) = 1
    ∧ ∃ pre post,
        renderLines sd
          = pre ++ (sd.Methods.flatMap
              (fun m => ["", regLine m.ResponseType, regLine m.RequestType])) ++ post
        ∧ List.countP isRegLine pre = 0
        ∧ List.countP isRegLine post = 0 := by
  obtain ⟨hreg, hcall, hctor, hclose⟩ := renderCounts sd
  refine ⟨hcall, hreg, hctor, hclose,
    ⟨["", pkgLine sd.PackageName, "", "func init() \x7b"],
     ["", "\x7d", "", typeLine sd.ServiceName, "   client *rpc.Client",
      "\x7d", "", ctorLine sd.ServiceName, dialLine, ifErrLine,
      ctorErrLine sd.PackageName sd.ServiceName, "   \x7d", "",
      ctorRetLine sd.ServiceName, "\x7d", ""]
     ++ sd.Methods.flatMap (callChunk sd.PackageName sd.ServiceName)
     ++ ["", closeLine sd.ServiceName, "   return c.client.Close()", "\x7d"],
     ?_, ?_, ?_⟩⟩
  · show renderLines sd = _
    unfold renderLines
    simp only [List.append_assoc]
    rfl
  · simp [List.countP_cons, lineFacts_empty, lineFacts_pkg, lineFacts_funcInit]
  · have h2 := countP_flatMap_const isRegLine
      (callChunk sd.PackageName sd.ServiceName) 0
      (fun m => (countP_callChunk sd.PackageName sd.ServiceName m).1) sd.Methods
    simp [List.countP_append, List.countP_cons, h2, lineFacts_empty,
      lineFacts_brace, lineFacts_indentBrace, lineFacts_type,
      lineFacts_clientField, lineFacts_ctor, lineFacts_dial, lineFacts_ifErr,
      lineFacts_ctorErr, lineFacts_ctorRet, lineFacts_close, lineFacts_retClose]

/-! ### Claim C5 -/

/-- Every interface-typed declaration in the traversal contributes its
`ServiceData` to the collected list (provided the traversal completes). -/
theorem collectServices_mem (pkg : String) (specs : List TypeSpec)
    (sds : List ServiceData) (name : String) (it : InterfaceType)
    (ms : List Method)
    (hmem : TypeSpec.mk name (.interfaceType it) ∈ specs)
    (hms : extractMethods it = some ms)
    (hcollect : collectServices pkg specs = some sds) :
    ServiceData.mk pkg name ms ∈ sds := by
  induction specs generalizing sds with
  | nil => simp at hmem
  | cons ts rest ih =>
    rcases List.mem_cons.mp hmem with heq | hmem'
    · rw [← heq] at hcollect
      simp only [collectServices] at hcollect
      rw [hms] at hcollect
      rcases Option.map_eq_some'.mp hcollect with ⟨sds', _, h2⟩
      rw [← h2]
      exact List.mem_cons_self _ _
    · obtain ⟨tname, tkind⟩ := ts
      cases tkind with
      | interfaceType it2 =>
        simp only [collectServices] at hcollect
        cases hms2 : extractMethods it2 with
        | none => rw [hms2] at hcollect; simp at hcollect
        | some ms2 =>
          rw [hms2] at hcollect
          rcases Option.map_eq_some'.mp hcollect with ⟨sds', h1, h2⟩
          rw [← h2]
          exact List.mem_cons_of_mem _ (ih sds' hmem' h1)
      | otherType e =>
        simp only [collectServices] at hcollect
        exact ih sds hmem' hcollect

/-- C5: an interface declaration found by the traversal yields a
`ServiceData` even when no method passes validation; its method
sequence is empty, and it still renders to exactly the client skeleton
(package clause, empty registration block, client type, constructor,
close method) with zero call-wrapping methods and zero registration
statements. -/
theorem c5_zero_method_interface (pkg : String) (specs : List TypeSpec)
    (name : String) (it : InterfaceType) (sds : List ServiceData)
    (hmem : TypeSpec.mk name (.interfaceType it) ∈ specs)
    (hempty : extractMethods it = some [])
    (hcollect : collectServices pkg specs = some sds) :
    ServiceData.mk pkg name [] ∈ sds
    ∧ renderLines (ServiceData.mk pkg name [])
      = ["", pkgLine pkg, "", "func init() \x7b", "", "\x7d", "",
         typeLine name, "   client *rpc.Client", "\x7d", "",
         ctorLine name, dialLine, ifErrLine, ctorErrLine pkg name,
         "   \x7d", "", ctorRetLine name, "\x7d", "",
         "", closeLine name, "   return c.client.Close()", "\x7d"]
    ∧ List.countP isCallHeader (renderLines (ServiceData.mk pkg name [])) = 0
    ∧ List.countP isRegLine (renderLines (ServiceData.mk pkg name [])) = 0 := by
  refine ⟨collectServices_mem pkg specs sds name it [] hmem hempty hcollect,
    rfl, ?_, ?_⟩
  · simpa using (renderCounts (ServiceData.mk pkg name [])).2.1
  · simpa using (renderCounts (ServiceData.mk pkg name [])).1

/-- C5 witness: an interface whose sole method `Say(req *Msg) *Reply`
fails validation still yields a service description. -/
theorem c5_witness :
    ServiceData.mk "main" "Echo" []
      ∈ [ServiceData.mk "main" "Echo" []] :=
  (c5_zero_method_interface "main"
    [⟨"Echo", .interfaceType ⟨[.funcMethod "Say" invalidSayFt]⟩⟩]
    "Echo" ⟨[.funcMethod "Say" invalidSayFt]⟩ [ServiceData.mk "main" "Echo" []]
    (by decide) (by decide) (by decide)).1

/-! ### Claim C6 -/

/-- The extracted method names form a sublist of the names declared on
the interface, in declaration order. -/
theorem extractMethodsList_names_sublist (ms : List MethodSpec)
    (l : List Method) (h : extractMethodsList ms = some l) :
    (l.map Method.Name).Sublist (declaredNames ms) := by
  induction ms generalizing l with
  | nil =>
    simp only [extractMethodsList, Option.some.injEq] at h
    rw [← h]
    simp
  | cons sp rest ih =>
    cases sp with
    | embedded e =>
      simp only [extractMethodsList] at h
      simpa [declaredNames] using ih l h
    | funcMethod n ft =>
      cases hv : validateMethodSignature ft with
      | none => simp [extractMethodsList, hv] at h
      | some b =>
        cases b with
        | false =>
          simp only [extractMethodsList, hv] at h
          simp only [declaredNames]
          exact (ih l h).cons n
        | true =>
          cases hps : ft.params with
          | none => simp [extractMethodsList, hv, hps] at h
          | some pl =>
            cases hrs : ft.results with
            | none => simp [extractMethodsList, hv, hps, hrs] at h
            | some rl =>
              cases hp1 : pl.list[1]? with
              | none => simp [extractMethodsList, hv, hps, hrs, hp1] at h
              | some p1 =>
                cases hr0 : rl.list[0]? with
                | none => simp [extractMethodsList, hv, hps, hrs, hp1, hr0] at h
                | some r0 =>
                  simp only [extractMethodsList, hv, hps, hrs,
                    List.get?_eq_getElem?, hp1, hr0] at h
                  rcases Option.map_eq_some'.mp h with ⟨l', h1, h2⟩
                  rw [← h2]
                  simp only [List.map_cons, declaredNames]
                  exact (ih l' h1).cons₂ n

/-- C6 (counterexample): the traversal never deduplicates — an
interface that (syntactically) declares the same conforming method name
twice produces a `ServiceData` whose two `Method` entries carry the
same name, violating the stated invariant. -/
theorem c6_counterexample :
    collectServices "main"
      [⟨"Svc", .interfaceType
        ⟨[.funcMethod "F" conformingFt, .funcMethod "F" conformingFt]⟩⟩]
      = some [{ PackageName := "main", ServiceName := "Svc",
                Methods := [⟨"F", "Req", "Resp"⟩, ⟨"F", "Req", "Resp"⟩] }]
    ∧ ¬ (([⟨"F", "Req", "Resp"⟩, ⟨"F", "Req", "Resp"⟩] : List Method).map
          Method.Name).Nodup := by decide

/-- C6 (amended): provided the interface's declared method names are
pairwise distinct (which the Go type checker guarantees for legal
input), the extracted `Method` names are unique within the service. -/
theorem c6_names_unique (it : InterfaceType) (l : List Method)
    (hnd : (declaredNames it.methods).Nodup)
    (h : extractMethods it = some l) :
    (l.map Method.Name).Nodup :=
  hnd.sublist (extractMethodsList_names_sublist it.methods l h)

/-- C6 witness at a single-method interface. -/
theorem c6_witness :
    (([⟨"Say", "Req", "Resp"⟩] : List Method).map Method.Name).Nodup :=
  c6_names_unique ⟨[.funcMethod "Say" conformingFt]⟩
    [⟨"Say", "Req", "Resp"⟩] (by decide) (by decide)

/-! ### Claim C7 -/

/-- C7: when every service before `sd` generates successfully and
generating `sd` fails, the run halts at `sd` with a non-zero exit: the
outputs handed to the writer are exactly those of the services before
`sd` — none for `sd` itself and none for any later service. -/
theorem c7_halt_on_generation_error (norm : String → Except String String)
    (l1 l2 : List ServiceData) (sd : ServiceData) (e : String)
    (outs1 : List (String × String))
    (hok : l1.map (generateClientCode norm) = outs1.map Except.ok)
    (hfail : generateClientCode norm sd = .error e) :
    driveGeneration norm (l1 ++ sd :: l2) = (outs1, some e)
    ∧ exitCode (driveGeneration norm (l1 ++ sd :: l2)) = 1 := by
  have hmain : driveGeneration norm (l1 ++ sd :: l2) = (outs1, some e) := by
    induction l1 generalizing outs1 with
    | nil =>
      cases outs1 with
      | nil => simp only [List.nil_append, driveGeneration, hfail]
      | cons o os => simp at hok
    | cons a t ih =>
      cases outs1 with
      | nil => simp at hok
      | cons o os =>
        simp only [List.map_cons] at hok
        injection hok with h1 h2
        simp [List.cons_append, driveGeneration, h1, ih os h2]
  exact ⟨hmain, by simp [exitCode, hmain]⟩

set_option maxRecDepth 8000 in
/-- C7 witness: one service succeeds, the next one's import
normalization fails, a third is pending; the run keeps only the first
service's output and exits non-zero. -/
theorem c7_witness :
    driveGeneration
      (fun s => if s = generatedText userService
        then Except.error "boom" else Except.ok s)
      ([sampleService] ++ userService :: [ServiceData.mk "main" "Late" []])
      = ([("echo_client_gen.go", generatedText sampleService)],
         some "imports error: boom")
    ∧ exitCode (driveGeneration
        (fun s => if s = generatedText userService
          then Except.error "boom" else Except.ok s)
        ([sampleService] ++ userService :: [ServiceData.mk "main" "Late" []])) = 1 :=
  c7_halt_on_generation_error
    (fun s => if s = generatedText userService
      then Except.error "boom" else Except.ok s)
    [sampleService] [ServiceData.mk "main" "Late" []] userService
    "imports error: boom"
    [("echo_client_gen.go", generatedText sampleService)] (by rfl) (by rfl)

/-! ### Claim C8 -/

/-- C8: every successfully generated output is named
`lowercase(serviceName) ++ "_client_gen.go"`; in particular service
name `UserService` yields `userservice_client_gen.go`. -/
theorem c8_output_file_name :
    (∀ (norm : String → Except String String) (sd : ServiceData)
        (out : String × String),
        generateClientCode norm sd = .ok out →
        out.1 = lowercase sd.ServiceName ++ "_client_gen.go")
    ∧ fileNameFor "UserService" = "userservice_client_gen.go" := by
  constructor
  · intro norm sd out h
    unfold generateClientCode at h
    cases hn : norm (generatedText sd) with
    | error e =>
      simp only [hn] at h
      exact Except.noConfusion h
    | ok f =>
      simp only [hn, Except.ok.injEq] at h
      rw [← h]
      rfl
  · decide

/-- C8 witness at service name `UserService`. -/
theorem c8_witness :
    (("userservice_client_gen.go", generatedText userService)
      : String × String).1
      = lowercase "UserService" ++ "_client_gen.go" :=
  c8_output_file_name.1 okNormalize userService
    ("userservice_client_gen.go", generatedText userService) (by rfl)

/-! ### Claim C9 -/

/-- C9: rendering is deterministic — the render pipeline is a pure
function of the service description, so two runs on the same
description (including a separately constructed copy of it) yield
byte-identical template output and an identical normalized result. -/
theorem c9_render_deterministic (norm : String → Except String String)
    (sd1 sd2 : ServiceData) (h : sd1 = sd2) :
    generatedText sd1 = generatedText sd2
    ∧ (generatedText sd1).data = (generatedText sd2).data
    ∧ generateClientCode norm sd1 = generateClientCode norm sd2 := by
  subst h
  exact ⟨rfl, rfl, rfl⟩

/-- C9 witness at the sample service. -/
theorem c9_witness :
    generatedText sampleService = generatedText sampleService
    ∧ (generatedText sampleService).data = (generatedText sampleService).data
    ∧ generateClientCode okNormalize sampleService
        = generateClientCode okNormalize sampleService :=
  c9_render_deterministic okNormalize sampleService sampleService rfl

end RpcGen
